import Mathlib

set_option maxRecDepth 100000

/-!
Shallow embedding of the TalkDocs application (`src/app.py`) and proofs of the
behavioural properties claimed about it.

The program is a Streamlit app that extracts text from uploaded PDFs
(`get_pdf_text`), splits it into chunks (`get_text_chunks`, via langchain's
`CharacterTextSplitter` with separator `"\n"`, chunk size 1000, overlap 200),
builds a FAISS vectorstore (`get_vectorstore`), builds a
`ConversationalRetrievalChain` (`get_conversation_chain`), and orchestrates
these on the "Process" button (`main`), plus a question handler
(`handle_userinput`).

External effects are modelled explicitly:
  * a PDF upload is a name plus either `none` (the PDF parser raises) or the
    list of per-page `extract_text` results;
  * Streamlit warnings/errors become returned lists of message strings;
  * session state (`st.session_state.conversation`, `chat_history`) becomes an
    explicit `SessionState` record threaded through the handlers;
  * the LLM call in `handle_userinput` is an oracle `Option String`
    (`none` models the call raising an exception).

Python string operations used by the source (`str.strip`, `".".join`,
`re.split` on a literal separator) are given small executable models
(`pyStrip`, `pyJoin`, `splitLines`).
-/

/-- Model of Python `str.isspace` on a single character (the characters the
source's `.strip()` removes). -/
def isPySpace (c : Char) : Bool := c.isWhitespace

/-- Model of Python `str.strip()`: drop leading and trailing whitespace. -/
def pyStrip (s : String) : String :=
  ⟨((s.data.dropWhile isPySpace).reverse.dropWhile isPySpace).reverse⟩

/-- Model of Python `sep.join(parts)`. -/
def pyJoin (sep : String) : List String → String
  | [] => ""
  | [x] => x
  | x :: y :: xs => x ++ sep ++ pyJoin sep (y :: xs)

/-- Truthiness of `file_text.strip()` in `app.py` line 30: the stripped string
is non-empty. -/
def stripTruthy (s : String) : Bool := pyStrip s ≠ ""

/-- An uploaded PDF handle as seen by `get_pdf_text`: a file name together
with the outcome of `PdfReader(pdf)` / page iteration.  `none` models the
parser raising an exception (the `except` branch of app.py line 35); `some ps`
models a successful parse whose pages yield the strings `ps` from
`extract_text()` (a page whose `extract_text()` returns `None` is modelled as
`""`; both are falsy and skipped identically at line 27). -/
structure UploadedPDF where
  name : String
  pages : Option (List String)
deriving DecidableEq, Repr

/-- The per-file accumulation loop of app.py lines 24–28: concatenate the page
texts, skipping falsy (empty) extraction results. -/
def fileTextOf : List String → String
  | [] => ""
  | t :: ts => (if t = "" then "" else t) ++ fileTextOf ts

/-- The scan over `pdf_docs` in app.py lines 21–36, returning the accumulated
`text`, the `unreadable_files` names and the `empty_text_files` names, each in
input order. -/
def scanPDFs : List UploadedPDF → String × List String × List String
  | [] => ("", [], [])
  | pdf :: rest =>
    let r := scanPDFs rest
    match pdf.pages with
    | none => (r.1, pdf.name :: r.2.1, r.2.2)
    | some ps =>
      let ft := fileTextOf ps
      if stripTruthy ft then (ft ++ r.1, r.2.1, r.2.2)
      else (r.1, r.2.1, pdf.name :: r.2.2)

/-- The warning emitted at app.py line 39 for unreadable files. -/
def unreadableWarning (names : List String) : String :=
  "⚠️ The following PDFs could not be read due to corruption or format issues: "
    ++ pyJoin ", " names

/-- The warning emitted at app.py line 43 for files with no extractable text. -/
def emptyTextWarning (names : List String) : String :=
  "⚠️ The following PDFs had no extractable text: " ++ pyJoin ", " names

/-- `get_pdf_text` (app.py lines 16–46).  Returns the extracted text
(`none` models returning Python `None`) together with the list of
`st.warning` messages surfaced. -/
def get_pdf_text (pdf_docs : List UploadedPDF) : Option String × List String :=
  let r := scanPDFs pdf_docs
  if r.2.1 ≠ [] then (none, [unreadableWarning r.2.1])
  else if r.2.2 ≠ [] then (none, [emptyTextWarning r.2.2])
  else (some r.1, [])

/-- A document is classified unreadable when the PDF parser raises. -/
def isUnreadable (d : UploadedPDF) : Bool := d.pages.isNone

/-- A document is classified empty-text when it parses but its concatenated
page text has no non-whitespace character. -/
def isEmptyText (d : UploadedPDF) : Bool :=
  match d.pages with
  | none => false
  | some ps => !stripTruthy (fileTextOf ps)

/-- A document is good when it parses and yields non-whitespace text. -/
def isGoodDoc (d : UploadedPDF) : Bool :=
  match d.pages with
  | none => false
  | some ps => stripTruthy (fileTextOf ps)

/-- The text `get_pdf_text` extracts from one document (for good documents). -/
def docText (d : UploadedPDF) : String :=
  match d.pages with
  | none => ""
  | some ps => fileTextOf ps

/-- Concatenation of a list of strings with no separator. -/
def concatAll : List String → String
  | [] => ""
  | s :: ss => s ++ concatAll ss

/-- Model of `re.split("\n", text)` as performed by langchain's
`_split_text_with_regex` for the escaped literal separator `"\n"` used in
app.py line 54 (equivalent to Python `text.split("\n")`). -/
def splitLines : List Char → List (List Char)
  | [] => [[]]
  | c :: cs =>
    match splitLines cs with
    | [] => [[c]]
    | l :: ls => if c = '\n' then [] :: l :: ls else (c :: l) :: ls

/-- Model of langchain `TextSplitter._join_docs`: join with the separator,
strip whitespace, and drop the chunk when the result is empty. -/
def joinDocs (sep : String) (docs : List String) : Option String :=
  let text := pyStrip (pyJoin sep docs)
  if text = "" then none else some text

/-- The `while` loop of langchain `TextSplitter._merge_splits` that pops
elements off the front of `current_doc` to keep at most `chunkOverlap` worth
of overlap (`dLen` is the length of the incoming split). -/
def popOverlap (sepLen chunkSize chunkOverlap dLen : Nat) :
    List String → Nat → List String × Nat
  | [], total => ([], total)
  | x :: rest, total =>
    if total > chunkOverlap ∨ (total + dLen + sepLen > chunkSize ∧ total > 0) then
      popOverlap sepLen chunkSize chunkOverlap dLen rest
        (total - (x.length + if rest = [] then 0 else sepLen))
    else (x :: rest, total)

/-- The `for d in splits` loop of langchain `TextSplitter._merge_splits`
(the oversized-chunk branch only logs a warning, which has no behavioural
effect and is not modelled). -/
def mergeGo (sep : String) (chunkSize chunkOverlap : Nat) :
    List String → List String → List String → Nat → List String
  | [], docs, currentDoc, _ => docs ++ (joinDocs sep currentDoc).toList
  | d :: ds, docs, currentDoc, total =>
    let dLen := d.length
    let sepLen := sep.length
    if total + dLen + (if currentDoc = [] then 0 else sepLen) > chunkSize then
      if currentDoc = [] then
        mergeGo sep chunkSize chunkOverlap ds docs [d] (total + dLen)
      else
        let docs2 := docs ++ (joinDocs sep currentDoc).toList
        let pr := popOverlap sepLen chunkSize chunkOverlap dLen currentDoc total
        mergeGo sep chunkSize chunkOverlap ds docs2 (pr.1 ++ [d])
          (pr.2 + dLen + if pr.1 = [] then 0 else sepLen)
    else
      mergeGo sep chunkSize chunkOverlap ds docs (currentDoc ++ [d])
        (total + dLen + if currentDoc = [] then 0 else sepLen)

/-- langchain `TextSplitter._merge_splits`. -/
def mergeSplits (sep : String) (chunkSize chunkOverlap : Nat)
    (splits : List String) : List String :=
  mergeGo sep chunkSize chunkOverlap splits [] [] 0

/-- langchain `CharacterTextSplitter.split_text` at the configuration of
app.py lines 53–58: separator `"\n"`, `chunk_size=1000`, `chunk_overlap=200`,
`length_function=len`, default `keep_separator=False`.  The text is split on
the separator, empty splits are dropped, and the splits are re-merged with the
separator into chunks. -/
def CharacterTextSplitter_split_text (text : String) : List String :=
  let splits :=
    ((splitLines text.data).map fun l => (⟨l⟩ : String)).filter (fun s => s ≠ "")
  mergeSplits "\n" 1000 200 splits

/-- `get_text_chunks` (app.py lines 49–60). -/
def get_text_chunks (text : String) : List String :=
  if text = "" then [] else CharacterTextSplitter_split_text text

/-- A FAISS vectorstore as built by `FAISS.from_texts` (app.py line 70):
modelled by the chunk texts it indexes (the embedding model is fixed,
`sentence-transformers/all-MiniLM-L6-v2`). -/
structure VectorStore where
  texts : List String
deriving DecidableEq, Repr

/-- `get_vectorstore` (app.py lines 63–71). -/
def get_vectorstore (text_chunks : List String) : Option VectorStore :=
  if text_chunks = [] then none else some ⟨text_chunks⟩

/-- One message template of a `ChatPromptTemplate`. -/
inductive PromptMsg where
  | system (template : String)
  | human (template : String)
deriving DecidableEq, Repr

/-- The `system_prompt` string literal of app.py lines 84–89, verbatim
(including the indentation inside the Python triple-quoted string). -/
def system_prompt : String :=
  "You are a helpful AI assistant for \x27TalkDocs\x27.\n    Always answer based only on the provided documents.\n    If the answer is not found in the documents, say \"I couldn\x27t find that in your files.\"\n    Provide clear, concise, and well-formatted responses.\n    Also you are able to compare document\x27s contents and judge which one is better or best.\n    "

/-- The `ChatPromptTemplate` built at app.py lines 91–94 from `system_prompt`
and the human template. -/
def talkdocs_prompt : List PromptMsg :=
  [PromptMsg.system system_prompt, PromptMsg.human "{question}"]

/-- A `ConversationalRetrievalChain` as configured by
`ConversationalRetrievalChain.from_llm` (app.py lines 100–104): the chat
model name, the retriever's vectorstore, and the prompt the answer-generation
(combine-docs) step was configured with — `none` means no custom prompt was
passed, so the chain uses the library's built-in default QA prompt. -/
structure ConversationChain where
  llm_model : String
  retriever : VectorStore
  qa_prompt : Option (List PromptMsg)
deriving DecidableEq, Repr

/-- `ConversationalRetrievalChain.from_llm` with no `combine_docs_chain_kwargs`
prompt argument supplied (the keyword is absent at app.py lines 100–104). -/
def ConversationalRetrievalChain_from_llm (llm : String) (retriever : VectorStore)
    (prompt_kwarg : Option (List PromptMsg)) : ConversationChain :=
  ⟨llm, retriever, prompt_kwarg⟩

/-- `get_conversation_chain` (app.py lines 74–106).  The local `prompt`
is constructed at lines 91–94 exactly as in the source, but — as in the
source — it is not passed to `ConversationalRetrievalChain.from_llm`: the
call at lines 100–104 supplies only `llm`, `retriever` and `memory`, so the
prompt keyword argument is `none`. -/
def get_conversation_chain (vectorstore : Option VectorStore) :
    Option ConversationChain :=
  match vectorstore with
  | none => none
  | some vs =>
    let llm := "llama3-8b-8192"
    let prompt := talkdocs_prompt
    some (ConversationalRetrievalChain_from_llm llm vs none)

/-- The Streamlit session state used by app.py: `st.session_state.conversation`
and `st.session_state.chat_history` (initialised at lines 161–164). -/
structure SessionState where
  conversation : Option ConversationChain
  chat_history : List (String × String)
deriving DecidableEq, Repr

/-- Session state at startup (app.py lines 161–164). -/
def initialState : SessionState := ⟨none, []⟩

/-- `handle_userinput` (app.py lines 109–148) as a state transformer.
`resp` is an oracle for the outcome of the chain invocation
`st.session_state.conversation({'question': user_question})` at line 138:
`some r` means the call returned a response with answer `r`, `none` means it
raised.  When `conversation` is `None`, calling it raises a `TypeError`
regardless, which the same `none` outcome models.  The user's message is
appended to `chat_history` before the chain is invoked; the bot reply is
appended only after a successful call.  The second component of the result is
the answer displayed (`none` = the exception propagated out of the handler,
leaving the user entry in place). -/
def handle_userinput (st : SessionState) (user_question : String)
    (resp : Option String) : SessionState × Option String :=
  let hist := st.chat_history ++ [("user", user_question)]
  match st.conversation, resp with
  | some _, some r =>
    ({ st with chat_history := hist ++ [("bot", r)] }, some r)
  | _, _ =>
    ({ st with chat_history := hist }, none)

/-- The pipeline stages of the Process action, in invocation order. -/
inductive PipelineStage where
  | extract
  | chunk
  | index
  | chain
deriving DecidableEq, Repr

/-- Where a run of the Process button ended. -/
inductive ProcessOutcome where
  | noPDF
  | noText
  | noChunks
  | noVectorstore
  | noChain
  | success
deriving DecidableEq, Repr

/-- The `st.error` message of app.py line 180. -/
def msg_noPDF : String :=
  "❌ No PDF uploaded. Please upload at least one PDF before processing."

/-- The `st.error` message of app.py line 186. -/
def msg_noText : String := "❌ PDF processing stopped. No usable text found."

/-- The `st.error` message of app.py line 191. -/
def msg_noChunks : String :=
  "❌ No text chunks could be generated. Please try a different document."

/-- The `st.error` message of app.py line 196. -/
def msg_noVectorstore : String := "❌ Vectorstore creation failed."

/-- The `st.error` message of app.py line 201. -/
def msg_noChain : String := "❌ Failed to initialize conversation chain."

/-- The `st.success` message of app.py line 206. -/
def msg_success : String :=
  "✅ PDF(s) processed successfully! You can now start chatting."

/-- The result of one press of the Process button: the session state after the
run, every warning/error/success message shown, the pipeline stages that were
invoked, and where the run ended. -/
structure ProcessResult where
  state : SessionState
  messages : List String
  stages : List PipelineStage
  outcome : ProcessOutcome
deriving DecidableEq, Repr

/-- The Process button branch of `main` (app.py lines 178–206) as a state
transformer.  `st.session_state.conversation` is assigned only at line 204,
after every stage has succeeded; every failure returns first, showing an
error.  (`if not raw_text` at line 185 is a Python truthiness test, so it also
fires on an empty extracted string.) -/
def processAction (st : SessionState) (pdf_docs : List UploadedPDF) :
    ProcessResult :=
  if pdf_docs = [] then ⟨st, [msg_noPDF], [], ProcessOutcome.noPDF⟩
  else
    match get_pdf_text pdf_docs with
    | (none, warns) =>
      ⟨st, warns ++ [msg_noText], [PipelineStage.extract], ProcessOutcome.noText⟩
    | (some raw_text, warns) =>
      if raw_text = "" then
        ⟨st, warns ++ [msg_noText], [PipelineStage.extract], ProcessOutcome.noText⟩
      else
        if get_text_chunks raw_text = [] then
          ⟨st, warns ++ [msg_noChunks], [PipelineStage.extract, PipelineStage.chunk],
            ProcessOutcome.noChunks⟩
        else
          match get_vectorstore (get_text_chunks raw_text) with
          | none =>
            ⟨st, warns ++ [msg_noVectorstore],
              [PipelineStage.extract, PipelineStage.chunk, PipelineStage.index],
              ProcessOutcome.noVectorstore⟩
          | some vectorstore =>
            match get_conversation_chain (some vectorstore) with
            | none =>
              ⟨st, warns ++ [msg_noChain],
                [PipelineStage.extract, PipelineStage.chunk, PipelineStage.index,
                  PipelineStage.chain],
                ProcessOutcome.noChain⟩
            | some conversation =>
              ⟨{ st with conversation := some conversation },
                warns ++ [msg_success],
                [PipelineStage.extract, PipelineStage.chunk, PipelineStage.index,
                  PipelineStage.chain],
                ProcessOutcome.success⟩

/-- The error message `main` shows for each failing outcome. -/
def errMsgFor : ProcessOutcome → String
  | ProcessOutcome.noPDF => msg_noPDF
  | ProcessOutcome.noText => msg_noText
  | ProcessOutcome.noChunks => msg_noChunks
  | ProcessOutcome.noVectorstore => msg_noVectorstore
  | ProcessOutcome.noChain => msg_noChain
  | ProcessOutcome.success => msg_success

/-- The pipeline stages that run before each outcome is reached. -/
def stagesRunFor : ProcessOutcome → List PipelineStage
  | ProcessOutcome.noPDF => []
  | ProcessOutcome.noText => [PipelineStage.extract]
  | ProcessOutcome.noChunks => [PipelineStage.extract, PipelineStage.chunk]
  | ProcessOutcome.noVectorstore =>
    [PipelineStage.extract, PipelineStage.chunk, PipelineStage.index]
  | ProcessOutcome.noChain =>
    [PipelineStage.extract, PipelineStage.chunk, PipelineStage.index,
      PipelineStage.chain]
  | ProcessOutcome.success =>
    [PipelineStage.extract, PipelineStage.chunk, PipelineStage.index,
      PipelineStage.chain]

/-- A user-visible action in one session: pressing Process with an upload set,
or asking a question (with the oracle for the chain call's outcome). -/
inductive SessionEvent where
  | process (docs : List UploadedPDF)
  | ask (q : String) (resp : Option String)
deriving DecidableEq, Repr

/-- One step of the session: dispatch an event to its handler. -/
def stepEvent (st : SessionState) : SessionEvent → SessionState
  | SessionEvent.process docs => (processAction st docs).state
  | SessionEvent.ask q resp => (handle_userinput st q resp).1

/-- Run a whole session from startup. -/
def runSession (events : List SessionEvent) : SessionState :=
  events.foldl stepEvent initialState

/-- The batch succeeds end to end: a non-empty upload set, extraction returns
a non-empty text, and chunking that text returns at least one chunk (the
vectorstore and chain steps then always succeed in the model, as in the code's
explicit `None` checks). -/
def processSucceeds (docs : List UploadedPDF) : Prop :=
  docs ≠ [] ∧ ∃ t, (get_pdf_text docs).1 = some t ∧ t ≠ "" ∧ get_text_chunks t ≠ []

/-- The chat-history entries the bot contributes in one `handle_userinput`
call: one reply when a chain is present and the call returns, nothing when the
call raises. -/
def botAppend : Option ConversationChain → Option String → List (String × String)
  | some _, some r => [("bot", r)]
  | _, _ => []

/-! ## Characterisation of the extraction scan -/

/-- The scan of `get_pdf_text` computes, in one pass: the concatenated text of
the good documents, the unreadable names, and the empty-text names, each as a
filter of the input in order. -/
theorem scanPDFs_spec (docs : List UploadedPDF) :
    scanPDFs docs =
      (concatAll ((docs.filter isGoodDoc).map docText),
       (docs.filter isUnreadable).map UploadedPDF.name,
       (docs.filter isEmptyText).map UploadedPDF.name) := by
  induction docs with
  | nil => rfl
  | cons d rest ih =>
    cases hp : d.pages with
    | none =>
      simp [scanPDFs, ih, isGoodDoc, isUnreadable, isEmptyText, hp,
        List.filter_cons]
    | some ps =>
      by_cases hst : stripTruthy (fileTextOf ps)
      · simp [scanPDFs, ih, isGoodDoc, isUnreadable, isEmptyText, docText,
          concatAll, hp, hst, List.filter_cons]
      · simp [scanPDFs, ih, isGoodDoc, isUnreadable, isEmptyText, hp, hst,
          List.filter_cons]

theorem isGoodDoc_not_unreadable {d : UploadedPDF} (h : isGoodDoc d) :
    ¬ isUnreadable d := by
  cases hp : d.pages <;> simp_all [isGoodDoc, isUnreadable, hp]

theorem isGoodDoc_not_emptyText {d : UploadedPDF} (h : isGoodDoc d) :
    ¬ isEmptyText d := by
  cases hp : d.pages <;> simp_all [isGoodDoc, isEmptyText, hp]

/-- C1: a batch containing an unreadable document fails with the warning that
names exactly the unreadable documents. -/
theorem get_pdf_text_unreadable_fails (pdf_docs : List UploadedPDF)
    (h : ∃ d ∈ pdf_docs, isUnreadable d) :
    get_pdf_text pdf_docs =
      (none, [unreadableWarning ((pdf_docs.filter isUnreadable).map UploadedPDF.name)]) := by
  have hne : pdf_docs.filter isUnreadable ≠ [] := by
    obtain ⟨d, hd, hu⟩ := h
    intro hnil
    have hmem := List.mem_filter.mpr ⟨hd, hu⟩
    rw [hnil] at hmem
    exact (List.not_mem_nil d) hmem
  simp [get_pdf_text, scanPDFs_spec, hne]

/-- Witness for C1: a batch with one corrupt and one readable PDF fails with
the warning naming only the corrupt one. -/
theorem get_pdf_text_unreadable_fails_witness :
    get_pdf_text [⟨"bad.pdf", none⟩, ⟨"ok.pdf", some ["hi"]⟩] =
      (none, [unreadableWarning ["bad.pdf"]]) :=
  (get_pdf_text_unreadable_fails
    [⟨"bad.pdf", none⟩, ⟨"ok.pdf", some ["hi"]⟩] (by decide)).trans (by decide)

/-- C2: a batch with no unreadable document but at least one empty-text
document fails with the warning that names exactly the empty-text
documents. -/
theorem get_pdf_text_emptyText_fails (pdf_docs : List UploadedPDF)
    (h0 : ∀ d ∈ pdf_docs, ¬ isUnreadable d)
    (h : ∃ d ∈ pdf_docs, isEmptyText d) :
    get_pdf_text pdf_docs =
      (none, [emptyTextWarning ((pdf_docs.filter isEmptyText).map UploadedPDF.name)]) := by
  have h1 : pdf_docs.filter isUnreadable = [] := by
    rw [List.filter_eq_nil_iff]
    intro d hd
    exact h0 d hd
  have hne : pdf_docs.filter isEmptyText ≠ [] := by
    obtain ⟨d, hd, he⟩ := h
    intro hnil
    have hmem := List.mem_filter.mpr ⟨hd, he⟩
    rw [hnil] at hmem
    exact (List.not_mem_nil d) hmem
  simp [get_pdf_text, scanPDFs_spec, h1, hne]

/-- Witness for C2: a batch with one good and one whitespace-only PDF fails
with the warning naming only the empty-text one. -/
theorem get_pdf_text_emptyText_fails_witness :
    get_pdf_text [⟨"ok.pdf", some ["hi"]⟩, ⟨"empty.pdf", some ["  "]⟩] =
      (none, [emptyTextWarning ["empty.pdf"]]) :=
  (get_pdf_text_emptyText_fails
    [⟨"ok.pdf", some ["hi"]⟩, ⟨"empty.pdf", some ["  "]⟩]
    (by decide) (by decide)).trans (by decide)

/-- C3: a batch in which every document is readable and yields non-whitespace
text succeeds, returning the concatenation of the per-document texts in input
order with no separator, and no warning. -/
theorem get_pdf_text_all_good_concat (pdf_docs : List UploadedPDF)
    (h : ∀ d ∈ pdf_docs, isGoodDoc d) :
    get_pdf_text pdf_docs = (some (concatAll (pdf_docs.map docText)), []) := by
  have h1 : pdf_docs.filter isUnreadable = [] := by
    rw [List.filter_eq_nil_iff]
    intro d hd
    exact isGoodDoc_not_unreadable (h d hd)
  have h2 : pdf_docs.filter isEmptyText = [] := by
    rw [List.filter_eq_nil_iff]
    intro d hd
    exact isGoodDoc_not_emptyText (h d hd)
  have h3 : pdf_docs.filter isGoodDoc = pdf_docs := List.filter_eq_self.mpr h
  simp [get_pdf_text, scanPDFs_spec, h1, h2, h3]

/-- Witness for C3: two good PDFs (one with an empty page) concatenate in
order with no separator. -/
theorem get_pdf_text_all_good_concat_witness :
    get_pdf_text [⟨"a.pdf", some ["Hello ", ""]⟩, ⟨"b.pdf", some ["World"]⟩] =
      (some "Hello World", []) :=
  (get_pdf_text_all_good_concat
    [⟨"a.pdf", some ["Hello ", ""]⟩, ⟨"b.pdf", some ["World"]⟩]
    (by decide)).trans (by decide)

/-! ## Behaviour of the chunker on single-line text -/

theorem splitLines_no_newline (l : List Char) (h : '\n' ∉ l) :
    splitLines l = [l] := by
  induction l with
  | nil => rfl
  | cons c cs ih =>
    have hc : c ≠ '\n' := fun hc => h (hc ▸ List.mem_cons_self c cs)
    have hcs : '\n' ∉ cs := fun hm => h (List.mem_cons_of_mem c hm)
    simp [splitLines, ih hcs, hc]

/-- On text that contains no line break, the splitter produces a single split
equal to the whole text, and merging turns it into the stripped text as the
only chunk (dropped entirely when whitespace-only) — regardless of its
length, because `CharacterTextSplitter` only ever cuts at the separator. -/
theorem get_text_chunks_no_newline (text : String) (h : '\n' ∉ text.data)
    (hne : text ≠ "") :
    get_text_chunks text =
      if pyStrip text = "" then [] else [pyStrip text] := by
  have hdata : (⟨text.data⟩ : String) = text := rfl
  unfold get_text_chunks CharacterTextSplitter_split_text
  rw [if_neg hne, splitLines_no_newline text.data h]
  simp only [List.map_cons, List.map_nil, hdata]
  rw [List.filter_cons_of_pos (by simpa using hne), List.filter_nil]
  unfold mergeSplits mergeGo
  split
  · unfold mergeGo joinDocs
    simp [pyJoin]
    split <;> simp_all
  · unfold mergeGo joinDocs
    simp [pyJoin]
    split <;> simp_all

/-- A text of 1001 repeated characters with no line break. -/
def longText : String := ⟨List.replicate 1001 'a'⟩

/-- Counterexample to C5 as stated: on a 1001-character text with no
line-break character, `get_text_chunks` returns one chunk of length 1001 —
not chunks of length at most 1000, and not
`ceil((L - 200) / 800) = 2` many chunks. -/
theorem get_text_chunks_long_no_newline_cex :
    1000 < longText.length ∧ '\n' ∉ longText.data ∧
      get_text_chunks longText = [longText] ∧
      ¬ ((∀ c ∈ get_text_chunks longText, c.length ≤ 1000) ∧
          (get_text_chunks longText).length = (longText.length - 200 + 799) / 800) := by
  refine ⟨by decide, by decide, ?_, ?_⟩
  · rw [get_text_chunks_no_newline longText (by decide) (by decide)]
    decide
  · rw [get_text_chunks_no_newline longText (by decide) (by decide)]
    decide

/-- C5 (amended): on text of length `L > 1000` with no line-break character
(and some non-whitespace content), `get_text_chunks` returns exactly one
chunk, namely the input stripped of leading/trailing whitespace — the
splitter cuts only at line breaks, so no 1000-character bound and no
`ceil((L - 200) / 800)` windowing count applies. -/
theorem get_text_chunks_long_no_newline (text : String)
    (hlen : 1000 < text.length) (h : '\n' ∉ text.data)
    (hs : pyStrip text ≠ "") :
    get_text_chunks text = [pyStrip text] ∧
      (get_text_chunks text).length = 1 := by
  have hne : text ≠ "" := by
    intro he
    rw [he] at hlen
    simp at hlen
  rw [get_text_chunks_no_newline text h hne, if_neg hs]
  exact ⟨rfl, rfl⟩

/-- Witness for the amended C5 at the 1001-character text. -/
theorem get_text_chunks_long_no_newline_witness :
    get_text_chunks longText = [longText] ∧
      (get_text_chunks longText).length = 1 := by
  have h := get_text_chunks_long_no_newline longText (by decide) (by decide)
    (by decide)
  rwa [show pyStrip longText = longText from by decide] at h

/-- Counterexample to C6 as stated: the 2-character text `" a"` is non-empty
and shorter than the window, yet `get_text_chunks` returns `["a"]`, not one
chunk equal to the input unchanged — the splitter strips surrounding
whitespace. -/
theorem get_text_chunks_short_text_cex :
    (" a" : String) ≠ "" ∧ (" a" : String).length < 1000 ∧
      get_text_chunks " a" = ["a"] ∧ get_text_chunks " a" ≠ [" a"] := by
  refine ⟨by decide, by decide, ?_, ?_⟩
  · rw [get_text_chunks_no_newline " a" (by decide) (by decide)]
    decide
  · rw [get_text_chunks_no_newline " a" (by decide) (by decide)]
    decide

/-- C6 (amended): on non-empty text shorter than the 1000-character window
with no line-break character and some non-whitespace content,
`get_text_chunks` returns exactly one chunk equal to the input stripped of
leading and trailing whitespace; in particular, input with no surrounding
whitespace is returned unchanged. -/
theorem get_text_chunks_short_text_stripped (text : String)
    (hlen : text.length < 1000) (h : '\n' ∉ text.data)
    (hs : pyStrip text ≠ "") :
    get_text_chunks text = [pyStrip text] := by
  have hne : text ≠ "" := by
    intro he
    rw [he] at hs
    exact hs rfl
  rw [get_text_chunks_no_newline text h hne, if_neg hs]

/-- Witness for the amended C6: `"hello"` is returned as the single chunk
unchanged. -/
theorem get_text_chunks_short_text_stripped_witness :
    get_text_chunks "hello" = ["hello"] := by
  rw [get_text_chunks_short_text_stripped "hello" (by decide) (by decide)
    (by decide)]
  decide

/-! ## The conversation chain's prompt configuration -/

/-- C4 (the code contradicts it): the chain built by `get_conversation_chain`
carries no custom combine-docs prompt — the `ChatPromptTemplate` assembled
from `system_prompt` at app.py lines 91–94 is never passed to
`ConversationalRetrievalChain.from_llm`, so the model is prompted with the
library default instead of the fixed TalkDocs system instruction. -/
theorem get_conversation_chain_default_prompt :
    ∃ ch, get_conversation_chain (some ⟨["chunk"]⟩) = some ch ∧
      ch.qa_prompt = none ∧ ch.qa_prompt ≠ some talkdocs_prompt :=
  ⟨⟨"llama3-8b-8192", ⟨["chunk"]⟩, none⟩, rfl, rfl, by simp⟩

/-! ## The Process action and the session state machine -/

/-- C9: pressing Process with no uploaded files shows the no-PDF error and
returns before any pipeline stage runs, leaving the whole session state
unchanged. -/
theorem processAction_no_upload (st : SessionState) :
    processAction st [] = ⟨st, [msg_noPDF], [], ProcessOutcome.noPDF⟩ := rfl

/-- C7: whenever a run of the Process action does not fully succeed, the
corresponding error message is among the messages shown, the pipeline stops
after exactly the stages leading up to the failure, and the session state —
in particular the stored conversation chain — is exactly what it was before
the action. -/
theorem processAction_failure_halts (st : SessionState)
    (pdf_docs : List UploadedPDF)
    (h : (processAction st pdf_docs).outcome ≠ ProcessOutcome.success) :
    (processAction st pdf_docs).state = st ∧
      errMsgFor (processAction st pdf_docs).outcome ∈
        (processAction st pdf_docs).messages ∧
      (processAction st pdf_docs).stages =
        stagesRunFor (processAction st pdf_docs).outcome := by
  revert h
  unfold processAction
  repeat' split
  all_goals intro h
  all_goals simp_all [errMsgFor, stagesRunFor]

/-- Witness for C7: processing a single corrupt PDF fails at extraction,
shows the no-usable-text error, and leaves the initial state untouched. -/
theorem processAction_failure_halts_witness :
    (processAction initialState [⟨"bad.pdf", none⟩]).state = initialState ∧
      errMsgFor (processAction initialState [⟨"bad.pdf", none⟩]).outcome ∈
        (processAction initialState [⟨"bad.pdf", none⟩]).messages ∧
      (processAction initialState [⟨"bad.pdf", none⟩]).stages =
        stagesRunFor (processAction initialState [⟨"bad.pdf", none⟩]).outcome :=
  processAction_failure_halts initialState [⟨"bad.pdf", none⟩] (by decide)

theorem processAction_state_not_success (st : SessionState)
    (docs : List UploadedPDF)
    (h : (processAction st docs).outcome ≠ ProcessOutcome.success) :
    (processAction st docs).state = st := by
  revert h
  unfold processAction
  repeat' split
  all_goals intro h
  all_goals simp_all

theorem processAction_success_conversation (st : SessionState)
    (docs : List UploadedPDF)
    (h : (processAction st docs).outcome = ProcessOutcome.success) :
    ∃ ch, (processAction st docs).state.conversation = some ch := by
  revert h
  unfold processAction
  repeat' split
  all_goals intro h
  all_goals simp_all

/-- The Process action succeeds exactly when the upload set is non-empty and
extraction and chunking go through, independently of the prior session
state. -/
theorem processAction_success_iff (st : SessionState)
    (docs : List UploadedPDF) :
    (processAction st docs).outcome = ProcessOutcome.success ↔
      processSucceeds docs := by
  unfold processAction processSucceeds
  repeat' split
  all_goals simp_all [get_vectorstore, get_conversation_chain]

theorem handle_userinput_conversation (st : SessionState) (q : String)
    (resp : Option String) :
    (handle_userinput st q resp).1.conversation = st.conversation := by
  cases hc : st.conversation <;> cases resp <;>
    simp [handle_userinput, hc]

/-- C10: `handle_userinput` first appends the user's question to the chat
history; when the chain call returns an answer the bot reply is appended
after it, and when the call raises the user entry stays with no rollback.
The stored conversation chain is never modified. -/
theorem handle_userinput_history (st : SessionState) (q : String)
    (resp : Option String) :
    (handle_userinput st q resp).1.chat_history =
      (st.chat_history ++ [("user", q)]) ++ botAppend st.conversation resp ∧
      (handle_userinput st q resp).1.conversation = st.conversation := by
  cases hc : st.conversation <;> cases resp <;>
    simp [handle_userinput, botAppend, hc]

/-- C8: over any whole session from startup, the stored conversation chain is
`None` exactly as long as no Process action has fully succeeded; only a run
in which every pipeline stage succeeds installs a (non-null) chain. -/
theorem runSession_conversation_none_iff (events : List SessionEvent) :
    (runSession events).conversation = none ↔
      ∀ docs, SessionEvent.process docs ∈ events → ¬ processSucceeds docs := by
  have key : ∀ (evts : List SessionEvent) (st : SessionState),
      (evts.foldl stepEvent st).conversation = none ↔
        (st.conversation = none ∧
          ∀ docs, SessionEvent.process docs ∈ evts → ¬ processSucceeds docs) := by
    intro evts
    induction evts with
    | nil =>
      intro st
      simp
    | cons e rest ih =>
      intro st
      cases e with
      | ask q resp =>
        rw [List.foldl_cons, ih]
        simp [stepEvent, handle_userinput_conversation]
      | process docs2 =>
        rw [List.foldl_cons, ih]
        by_cases hs : processSucceeds docs2
        · have hsucc : (processAction st docs2).outcome = ProcessOutcome.success :=
            (processAction_success_iff st docs2).mpr hs
          obtain ⟨ch, hch⟩ := processAction_success_conversation st docs2 hsucc
          constructor
          · rintro ⟨h1, _⟩
            exfalso
            simp only [stepEvent, hch] at h1
            exact Option.noConfusion h1
          · rintro ⟨_, h2⟩
            exact absurd hs (h2 docs2 (List.mem_cons_self _ _))
        · have hnsucc : (processAction st docs2).outcome ≠ ProcessOutcome.success :=
            fun heq => hs ((processAction_success_iff st docs2).mp heq)
          have hst : (processAction st docs2).state = st :=
            processAction_state_not_success st docs2 hnsucc
          simp only [stepEvent, hst]
          constructor
          · rintro ⟨h1, h2⟩
            refine ⟨h1, ?_⟩
            intro docs hmem
            rcases List.mem_cons.mp hmem with hh | ht
            · injection hh with hdd
              exact hdd ▸ hs
            · exact h2 docs ht
          · rintro ⟨h1, h2⟩
            exact ⟨h1, fun docs ht => h2 docs (List.mem_cons_of_mem _ ht)⟩
  unfold runSession
  rw [key events initialState]
  simp [initialState]
